import Mathlib

/-!
Verification of `backend/server/settings.py`.

The module is embedded shallowly: the process environment is a partial map
from variable names to string values, the ambient state visible to the module
(environment, the two `langchain.globals` logging flags, and the module-level
constant bindings) is an explicit record, and each function of the module is a
state-passing Lean function returning its result together with the resulting
ambient state.
-/

/-- The process environment (`os.environ`): a partial map from variable names
to string values. -/
abbrev Env := String → Option String

/-- `os.environ.get(key, default)`: the variable's value when it is set,
otherwise the default. -/
def Env.get (env : Env) (key default : String) : String :=
  match env key with
  | some v => v
  | none   => default

/-- `sqlalchemy.engine.URL`: a database connection descriptor, recording the
fields `URL.create` is given by `get_postgres_url`. -/
structure URL where
  drivername : String
  username : String
  password : String
  host : String
  database : String
  port : Nat
deriving DecidableEq, Repr

/-- `sqlalchemy.engine.URL.create`: assembles a connection descriptor from its
components. -/
def URL.create (drivername username password host database : String)
    (port : Nat) : URL :=
  { drivername := drivername, username := username, password := password,
    host := host, database := database, port := port }

/-- `langchain_openai.AzureChatOpenAI`: the model client handle, recording the
construction parameters `get_model` passes to it. -/
structure AzureChatOpenAI where
  deployment_name : String
  model_version : String
  temperature : Int
deriving DecidableEq, Repr

/-- The ambient state the module can observe or modify: the process
environment, the two global logging flags of `langchain.globals`, and the
module-level constant bindings (`MODEL_NAME`, `CHUNK_SIZE`, `CHUNK_OVERLAP`,
`MAX_CONCURRENCY`). -/
structure ModuleState where
  env : Env
  debug : Bool
  verbose : Bool
  MODEL_NAME : String
  CHUNK_SIZE : Int
  CHUNK_OVERLAP : Int
  MAX_CONCURRENCY : Int

/-- `langchain.globals.set_debug`: sets the global debug flag. -/
def set_debug (b : Bool) (s : ModuleState) : ModuleState :=
  { s with debug := b }

/-- `langchain.globals.set_verbose`: sets the global verbose flag. -/
def set_verbose (b : Bool) (s : ModuleState) : ModuleState :=
  { s with verbose := b }

/-- Import-time execution of the module body (lines 10-17 of `settings.py`):
binds the four module constants to their literal values, then calls
`set_debug(True)` and `set_verbose(True)`. -/
def loadModule (s : ModuleState) : ModuleState :=
  set_verbose true (set_debug true
    { s with
      MODEL_NAME := "gpt-3.5-turbo",
      CHUNK_SIZE := (250 : Int),
      CHUNK_OVERLAP := (0 : Int),
      MAX_CONCURRENCY := 1 })

/-- `get_postgres_url`: builds the connection descriptor via `URL.create` with
fixed drivername, username, password, database and port, and with host read
from `os.environ.get("PG_HOST", "localhost")`.  The ambient state is returned
unchanged, mirroring the absence of any write in the source body. -/
def get_postgres_url (s : ModuleState) : URL × ModuleState :=
  (URL.create "postgresql" "langchain" "langchain"
    (Env.get s.env "PG_HOST" "localhost") "langchain" 5432, s)

/-- `get_model`: constructs an `AzureChatOpenAI` handle with the fixed
deployment name, model version and temperature.  The ambient state is returned
unchanged, mirroring the absence of any write in the source body. -/
def get_model (s : ModuleState) : AzureChatOpenAI × ModuleState :=
  ({ deployment_name := "gpt-35-turbo-0125", model_version := "0125",
     temperature := 0 }, s)

/-- A sequence of calls into the module: each element is one invocation of
`get_postgres_url` or `get_model`. -/
inductive Call where
  | pg : Call
  | model : Call

/-- Runs a list of calls against an ambient state, threading the state through
each call. -/
def runCalls : List Call → ModuleState → ModuleState
  | [], s => s
  | Call.pg :: cs, s => runCalls cs (get_postgres_url s).2
  | Call.model :: cs, s => runCalls cs (get_model s).2

/-- An environment with no variable set. -/
def noEnv : Env := fun _ => none

/-- An environment in which every variable is set to `v`. -/
def allEnv (v : String) : Env := fun _ => some v

/-- A concrete pre-load ambient state over the empty environment. -/
def st0 : ModuleState :=
  { env := noEnv, debug := false, verbose := false, MODEL_NAME := "",
    CHUNK_SIZE := 0, CHUNK_OVERLAP := 0, MAX_CONCURRENCY := 0 }

/-- A concrete ambient state in which `PG_HOST` (like every variable) is set
to `v`. -/
def stAll (v : String) : ModuleState := { st0 with env := allEnv v }

/-- C1: for every ambient state in which `PG_HOST` is unset, `get_postgres_url`
returns a descriptor with host `"localhost"`, drivername `"postgresql"`,
username `"langchain"`, password `"langchain"`, database `"langchain"` and
port 5432. -/
theorem get_postgres_url_default_host (s : ModuleState)
    (h : s.env "PG_HOST" = none) :
    (get_postgres_url s).1 =
      { drivername := "postgresql", username := "langchain",
        password := "langchain", host := "localhost",
        database := "langchain", port := 5432 } := by
  simp [get_postgres_url, URL.create, Env.get, h]

/-- Witness for C1 at the concrete state `st0`, whose environment is empty. -/
theorem get_postgres_url_default_host_witness :
    st0.env "PG_HOST" = none ∧
    (get_postgres_url st0).1 =
      { drivername := "postgresql", username := "langchain",
        password := "langchain", host := "localhost",
        database := "langchain", port := 5432 } :=
  ⟨rfl, get_postgres_url_default_host st0 rfl⟩

/-- C2: for every string `v` that `PG_HOST` is set to, `get_postgres_url`
returns a descriptor whose host is exactly `v`, with the other five fields
keeping their fixed values. -/
theorem get_postgres_url_override_host (s : ModuleState) (v : String)
    (h : s.env "PG_HOST" = some v) :
    (get_postgres_url s).1 =
      { drivername := "postgresql", username := "langchain",
        password := "langchain", host := v,
        database := "langchain", port := 5432 } := by
  simp [get_postgres_url, URL.create, Env.get, h]

/-- Witness for C2 at a concrete state with `PG_HOST` set to
`"db.example.com"`. -/
theorem get_postgres_url_override_host_witness :
    (stAll "db.example.com").env "PG_HOST" = some "db.example.com" ∧
    (get_postgres_url (stAll "db.example.com")).1 =
      { drivername := "postgresql", username := "langchain",
        password := "langchain", host := "db.example.com",
        database := "langchain", port := 5432 } :=
  ⟨rfl, get_postgres_url_override_host (stAll "db.example.com")
    "db.example.com" rfl⟩

/-- C3: noninterference over the environment — for any two ambient states, the
two descriptors returned by `get_postgres_url` agree on drivername, username,
password, database and port; only the host can differ. -/
theorem get_postgres_url_noninterference (s₁ s₂ : ModuleState) :
    (get_postgres_url s₁).1.drivername = (get_postgres_url s₂).1.drivername ∧
    (get_postgres_url s₁).1.username = (get_postgres_url s₂).1.username ∧
    (get_postgres_url s₁).1.password = (get_postgres_url s₂).1.password ∧
    (get_postgres_url s₁).1.database = (get_postgres_url s₂).1.database ∧
    (get_postgres_url s₁).1.port = (get_postgres_url s₂).1.port :=
  ⟨rfl, rfl, rfl, rfl, rfl⟩

/-- C4: every call to `get_model`, from any ambient state (hence after any
number of earlier calls, all of which leave the state intact), returns a
handle with temperature 0, deployment name `"gpt-35-turbo-0125"` and model
version `"0125"`. -/
theorem get_model_fixed_params (s : ModuleState) :
    (get_model s).1 =
      { deployment_name := "gpt-35-turbo-0125", model_version := "0125",
        temperature := 0 } :=
  rfl

/-- C5: after the module body runs, the four constants hold their literal
values, and they still hold them after any sequence of calls to
`get_postgres_url` and `get_model`. -/
theorem constants_immutable (s : ModuleState) (cs : List Call) :
    (runCalls cs (loadModule s)).MODEL_NAME = "gpt-3.5-turbo" ∧
    (runCalls cs (loadModule s)).CHUNK_SIZE = 250 ∧
    (runCalls cs (loadModule s)).CHUNK_OVERLAP = 0 ∧
    (runCalls cs (loadModule s)).MAX_CONCURRENCY = 1 := by
  have hrun : ∀ (l : List Call) (t : ModuleState), runCalls l t = t := by
    intro l
    induction l with
    | nil => intro t; rfl
    | cons c l ih =>
        intro t
        cases c with
        | pg => exact ih (get_postgres_url t).2
        | model => exact ih (get_model t).2
  rw [hrun]
  exact ⟨rfl, rfl, rfl, rfl⟩

/-- C6: `get_postgres_url` is total and performs no validation of the host
value: whenever `PG_HOST` is set to any string `v` — the empty string
included — the host of the result is exactly `v`, and the `"localhost"`
fallback is used exactly when `PG_HOST` is unset. -/
theorem get_postgres_url_total_exact_host (s : ModuleState) :
    (∀ v, s.env "PG_HOST" = some v → (get_postgres_url s).1.host = v) ∧
    (s.env "PG_HOST" = none → (get_postgres_url s).1.host = "localhost") := by
  constructor
  · intro v h
    simp [get_postgres_url, URL.create, Env.get, h]
  · intro h
    simp [get_postgres_url, URL.create, Env.get, h]

/-- Witness for C6 at a concrete state with `PG_HOST` set to the empty
string: the host is the empty string, not the fallback. -/
theorem get_postgres_url_total_exact_host_witness :
    (get_postgres_url (stAll "")).1.host = "" :=
  (get_postgres_url_total_exact_host (stAll "")).1 "" rfl

/-- C7: frame condition — `get_postgres_url` leaves the whole ambient state
(environment, logging flags, constants) unchanged. -/
theorem get_postgres_url_frame (s : ModuleState) :
    (get_postgres_url s).2 = s :=
  rfl

/-- C8: running the module body sets both logging flags to true, regardless
of their previous values, before any factory can be called. -/
theorem loadModule_sets_flags (s : ModuleState) :
    (loadModule s).debug = true ∧ (loadModule s).verbose = true :=
  ⟨rfl, rfl⟩

/-- C9: `get_postgres_url` is deterministic with respect to the environment —
two ambient states with the same environment yield field-for-field equal
descriptors. -/
theorem get_postgres_url_deterministic (s₁ s₂ : ModuleState)
    (h : s₁.env = s₂.env) :
    (get_postgres_url s₁).1 = (get_postgres_url s₂).1 := by
  simp [get_postgres_url, URL.create, Env.get, h]

/-- Witness for C9: two concrete states sharing the empty environment yield
equal descriptors. -/
theorem get_postgres_url_deterministic_witness :
    (get_postgres_url st0).1 =
      (get_postgres_url { st0 with debug := true }).1 :=
  get_postgres_url_deterministic st0 { st0 with debug := true } rfl

/-- C10: the `MODEL_NAME` binding is not consulted by either factory — a state
differing only in `MODEL_NAME` produces the same outputs — and the deployment
name and model version `get_model` passes are literals distinct from the
loaded value of `MODEL_NAME`. -/
theorem model_name_unused (s : ModuleState) (m : String) :
    (get_model { s with MODEL_NAME := m }).1 = (get_model s).1 ∧
    (get_postgres_url { s with MODEL_NAME := m }).1 =
      (get_postgres_url s).1 ∧
    (get_model (loadModule s)).1.deployment_name ≠
      (loadModule s).MODEL_NAME ∧
    (get_model (loadModule s)).1.model_version ≠
      (loadModule s).MODEL_NAME := by
  refine ⟨rfl, rfl, ?_, ?_⟩
  · show "gpt-35-turbo-0125" ≠ "gpt-3.5-turbo"
    decide
  · show "0125" ≠ "gpt-3.5-turbo"
    decide
